import Mathlib

/-!
Verification of the TimeTracker process-duration tracking engine.

Shallow embedding of `src/main.rs`. Time instants (`tokio::time::Instant`)
and durations (`tokio::time::Duration`) are modelled as natural numbers of
nanoseconds; `Instant::saturating_duration_since` is truncated natural
subtraction. The RwLock around the published duration text is modelled as a
plain string (the lock is only poisoned on a panic, which never happens in
this code, so the `Ok` branch of `duration_text.write()` is always taken).
`ctx.request_repaint()` has no bearing on any engine state and is omitted.
-/

namespace TimeTracker

abbrev Pid := Nat

/-- Process status as the code consumes it: `sysinfo::ProcessStatus` has many
variants but `process_watcher_async` only compares against
`ProcessStatus::Run` (main.rs line 46), so every other variant is collapsed
into `Other`. -/
inductive ProcessStatus where
  | Run
  | Other
  deriving DecidableEq

/-- Nanoseconds, the resolution of `tokio::time::Duration`. -/
abbrev Duration := Nat

/-- An instant in nanoseconds since some origin. -/
abbrev Instant := Nat

def NANOS_PER_SEC : Nat := 1000000000

/-- `Duration::as_secs` (main.rs line 51). -/
def asSecs (d : Duration) : Nat := d / NANOS_PER_SEC

/-- `Instant::saturating_duration_since` (main.rs line 48): the elapsed time
from `earlier` to `now`, clamped to zero when `now` is before `earlier`.
Truncated natural subtraction is exactly this clamp. -/
def saturatingDurationSince (now earlier : Instant) : Duration := now - earlier

/-- Two-digit zero padding, `{:02}` in the format string of main.rs line 59. -/
def pad2 (n : Nat) : String := if n < 10 then "0" ++ Nat.repr n else Nat.repr n

/-- The `HH:MM:SS` rendering written to `duration_text`
(main.rs lines 53-59). -/
def formatHMS (totalSecs : Nat) : String :=
  pad2 (totalSecs / 3600) ++ ":" ++ pad2 ((totalSecs % 3600) / 60) ++ ":"
    ++ pad2 (totalSecs % 60)

/-- The local mutable state of one `process_watcher_async` task
(main.rs lines 29-32): `last_update`, `last_seconds`, `process_duration`. -/
structure WatcherState where
  last_update : Instant
  last_seconds : Nat
  process_duration : Duration
  deriving DecidableEq

/-- The initial watcher state at spawn (main.rs lines 29-32):
`last_update = Instant::now()`, `last_seconds = 0`,
`process_duration = Duration::default()`. -/
def initWatcher (spawnTime : Instant) : WatcherState :=
  { last_update := spawnTime, last_seconds := 0, process_duration := 0 }

/-- What one tick of the loop observes: the value `Instant::now()` would
return during the tick body, and the probe result
`system.process(pid).map(|p| p.status())` — `none` when the pid no longer
resolves to a live process. -/
structure TickInput where
  now : Instant
  probe : Option ProcessStatus
  deriving DecidableEq

/-- The outcome of one select iteration of the watcher loop: the successor
local state, the published text afterwards, whether the publisher was
written this iteration, and whether the loop returned. -/
structure StepResult where
  state : WatcherState
  text : String
  wrote : Bool
  terminated : Bool
  deriving DecidableEq

/-- The body of the `update_interval.tick()` branch (main.rs lines 41-76).
If not paused, the process is probed: status `Run` accumulates the
saturating delta since `last_update`, re-anchors, and writes the formatted
duration; any other live status does nothing; an unresolved pid returns
(terminates the loop). If paused, the probe is skipped entirely and
`last_update` is re-anchored to the current instant. -/
def tickBody (paused : Bool) (inp : TickInput) (s : WatcherState)
    (text : String) : StepResult :=
  if !paused then
    match inp.probe with
    | some st =>
      if st = ProcessStatus.Run then
        let d := s.process_duration + saturatingDurationSince inp.now s.last_update
        let total_secs := asSecs d
        { state := { last_update := inp.now, last_seconds := total_secs,
                     process_duration := d },
          text := formatHMS total_secs, wrote := true, terminated := false }
      else
        { state := s, text := text, wrote := false, terminated := false }
    | none =>
      { state := s, text := text, wrote := false, terminated := true }
  else
    { state := { s with last_update := inp.now }, text := text,
      wrote := false, terminated := false }

/-- One full iteration of the `select!` loop (main.rs lines 35-78). The
select is `biased`: the cancellation branch is polled first, so a pending
cancellation wins over a simultaneously ready tick and the loop returns
without sampling or writing. Otherwise the tick body runs. -/
def watcherStep (cancelPending paused : Bool) (inp : TickInput)
    (s : WatcherState) (text : String) : StepResult :=
  if cancelPending then
    { state := s, text := text, wrote := false, terminated := true }
  else tickBody paused inp s text

/-- The environment of one loop iteration: whether the cancellation token is
signalled, the shared paused flag, and the tick observation. -/
structure IterInput where
  cancelPending : Bool
  paused : Bool
  tick : TickInput
  deriving DecidableEq

/-- Running the watcher loop over a finite schedule of iterations, stopping
as soon as an iteration returns. Yields the final local state, the final
published text, and whether the loop returned within the schedule. -/
def watcherRun : List IterInput → WatcherState → String →
    WatcherState × String × Bool
  | [], s, text => (s, text, false)
  | i :: rest, s, text =>
    let r := watcherStep i.cancelPending i.paused i.tick s text
    if r.terminated then (r.state, r.text, true)
    else watcherRun rest r.state r.text

/-- The fields of `ProcessApp` that bear on the tracking engine
(main.rs lines 81-93). Cancellation tokens are modelled by numeric
identities; the UI-only fields (`system`, `process_window_open`,
`process_filter`, `filtered_processes`) are outside the engine. -/
structure ProcessApp where
  duration_text : String
  paused : Bool
  cancellation_token : Option Nat
  tracked_process : Option Pid
  tracked_process_name : String
  deriving DecidableEq

/-- `ProcessApp::new` (main.rs lines 104-118): the published text starts as
the placeholder, no token, no tracked process, not paused. -/
def ProcessApp.new : ProcessApp :=
  { duration_text := "--:--:--", paused := false, cancellation_token := none,
    tracked_process := none, tracked_process_name := "" }

/-- The effect of clicking a process entry in the selection window
(main.rs lines 171-202): the new app state, the token of the old sampler
that was cancelled (if any), and the initial local state of the freshly
spawned watcher (if one was spawned). -/
structure SelectResult where
  app : ProcessApp
  cancelled_old : Option Nat
  spawned : Option WatcherState
  deriving DecidableEq

/-- Clicking process `pid` named `name` in the list (main.rs lines 171-202).
If `pid` differs from the tracked process: take and cancel the old token,
reset `paused` to false, record the new pid and name, install a fresh token
and spawn a watcher initialised at the current instant. Otherwise nothing
happens. -/
def select_clicked (pid : Pid) (name : String) (now : Instant)
    (freshToken : Nat) (app : ProcessApp) : SelectResult :=
  if app.tracked_process ≠ some pid then
    { app := { duration_text := app.duration_text, paused := false,
               cancellation_token := some freshToken,
               tracked_process := some pid, tracked_process_name := name },
      cancelled_old := app.cancellation_token,
      spawned := some (initWatcher now) }
  else
    { app := app, cancelled_old := none, spawned := none }

/-- The Stop button handler (main.rs lines 233-238) together with
`stop_and_join_thread` (lines 120-124): clear the tracked process and its
name, take and cancel the token. Returns the cancelled token. Note that
`duration_text` is not touched. -/
def stop_clicked (app : ProcessApp) : ProcessApp × Option Nat :=
  ({ app with
      tracked_process := none,
      tracked_process_name := "",
      cancellation_token := none },
   app.cancellation_token)

/-- A closed system of the app together with its (at most one) live watcher
task, used to trace consumer-visible text across a whole session. -/
structure AppSys where
  app : ProcessApp
  watcher : Option WatcherState
  deriving DecidableEq

/-- Events driving the closed system: a click on a process in the list, one
iteration of the live watcher (its token not cancelled), and a click on
Stop. After Stop the cancelled watcher returns at its next biased select
without writing, so it is dropped from the system. -/
inductive AppEvent where
  | selectClick (pid : Pid) (name : String) (now : Instant) (tok : Nat)
  | watcherTick (inp : TickInput)
  | stopClick
  deriving DecidableEq

def appSysStep (e : AppEvent) (sys : AppSys) : AppSys :=
  match e with
  | .selectClick pid name now tok =>
    let r := select_clicked pid name now tok sys.app
    match r.spawned with
    | some w => { app := r.app, watcher := some w }
    | none => { app := r.app, watcher := sys.watcher }
  | .watcherTick inp =>
    match sys.watcher with
    | some w =>
      let r := watcherStep false sys.app.paused inp w sys.app.duration_text
      { app := { sys.app with duration_text := r.text },
        watcher := if r.terminated then none else some r.state }
    | none => sys
  | .stopClick =>
    { app := (stop_clicked sys.app).1, watcher := none }

def appSysRun (es : List AppEvent) (sys : AppSys) : AppSys :=
  es.foldl (fun s e => appSysStep e s) sys

/-- Program counter of the retiring watcher task during a session switch.
One `select!` iteration is not atomic: after the biased select commits to
the tick branch, the whole tick body (probe, accumulate, publisher write)
runs without re-checking cancellation, so a cancellation signalled during
the body does not stop that body's write. -/
inductive OldPC where
  | atSelect
  | inBody (inp : TickInput)
  | done
  deriving DecidableEq

/-- Interleaving state of a session switch: the old watcher (with its
program counter and token), an optional freshly spawned new watcher (whose
own token is never cancelled here), the shared published text — both tasks
hold clones of the same `Arc<RwLock<String>>` — and a log of publisher
writes tagged with their author (`true` = the old session's loop). The
shared paused flag is false throughout: `select_clicked` resets it. -/
structure SwitchSys where
  oldCancel : Bool
  oldPC : OldPC
  oldState : WatcherState
  newTask : Option WatcherState
  text : String
  log : List (Bool × String)
  deriving DecidableEq

/-- Scheduler actions for the switch interleaving: the old task polls its
select; the old task finishes a committed tick body; the UI thread performs
the switch (main.rs lines 172-199: cancel the old token, then spawn the new
watcher, synchronously, with no wait for acknowledgment); the new task runs
one whole iteration. -/
inductive SwAction where
  | oldSelect (inp : TickInput)
  | oldBody
  | switchTo (spawnTime : Instant)
  | newTick (inp : TickInput)
  deriving DecidableEq

/-- One labelled transition of the switch interleaving; `none` when the
action is not enabled in the given state. -/
def swStep (a : SwAction) (s : SwitchSys) : Option SwitchSys :=
  match a with
  | .oldSelect inp =>
    match s.oldPC with
    | OldPC.atSelect =>
      if s.oldCancel then some { s with oldPC := OldPC.done }
      else some { s with oldPC := OldPC.inBody inp }
    | _ => none
  | .oldBody =>
    match s.oldPC with
    | OldPC.inBody inp =>
      let r := tickBody false inp s.oldState s.text
      some { oldCancel := s.oldCancel,
             oldPC := if r.terminated then OldPC.done else OldPC.atSelect,
             oldState := r.state,
             newTask := s.newTask,
             text := r.text,
             log := s.log ++ (if r.wrote then [(true, r.text)] else []) }
    | _ => none
  | .switchTo spawnTime =>
    match s.newTask with
    | none =>
      some { s with oldCancel := true, newTask := some (initWatcher spawnTime) }
    | some _ => none
  | .newTick inp =>
    match s.newTask with
    | some w =>
      let r := watcherStep false false inp w s.text
      some { s with
              newTask := if r.terminated then none else some r.state,
              text := r.text,
              log := s.log ++ (if r.wrote then [(false, r.text)] else []) }
    | none => none

def swRun : List SwAction → SwitchSys → Option SwitchSys
  | [], s => some s
  | a :: rest, s =>
    match swStep a s with
    | some s1 => swRun rest s1
    | none => none

/-- A write by the old session's loop is observed strictly after some write
by the new session's loop. -/
def staleAfterNew : List (Bool × String) → Bool
  | [] => false
  | (fromOld, _) :: rest =>
    (!fromOld && rest.any (fun w => w.1)) || staleAfterNew rest

/-- Helper: over any schedule of iterations that are all uncancelled and
paused, the watcher loop keeps its accumulated duration, keeps the
published text, and never terminates. -/
theorem watcherRun_paused_frame (run : List IterInput)
    (h : run.all (fun i => !i.cancelPending && i.paused) = true) :
    ∀ (s : WatcherState) (text : String),
      (watcherRun run s text).1.process_duration = s.process_duration ∧
      (watcherRun run s text).2.1 = text ∧
      (watcherRun run s text).2.2 = false := by
  induction run with
  | nil => intro s text; simp [watcherRun]
  | cons i rest ih =>
    intro s text
    simp only [List.all_cons, Bool.and_eq_true, Bool.not_eq_true'] at h
    obtain ⟨⟨hc, hp⟩, hrest⟩ := h
    simp only [watcherRun, hc, hp, watcherStep, tickBody, Bool.not_true,
      Bool.false_eq_true, if_false, if_true]
    exact ih hrest _ text

/-- C2: on each tick taken while paused (and not cancelled) the accumulator
leaves the duration unchanged and re-anchors `last_update` to the tick's
timestamp, without writing or terminating; consequently any schedule of
paused ticks — of any length, with any probe results — contributes zero to
the accumulated duration and leaves the published text unchanged. -/
theorem C2_pause_contributes_zero (inp : TickInput) (s : WatcherState)
    (text : String) (run : List IterInput)
    (hrun : run.all (fun i => !i.cancelPending && i.paused) = true) :
    (watcherStep false true inp s text).state.process_duration
        = s.process_duration ∧
    (watcherStep false true inp s text).state.last_update = inp.now ∧
    (watcherStep false true inp s text).text = text ∧
    (watcherStep false true inp s text).terminated = false ∧
    (watcherRun run s text).1.process_duration = s.process_duration ∧
    (watcherRun run s text).2.1 = text :=
  ⟨rfl, rfl, rfl, rfl, (watcherRun_paused_frame run hrun s text).1,
   (watcherRun_paused_frame run hrun s text).2.1⟩

theorem C2_pause_contributes_zero_witness :
    (watcherRun
        [⟨false, true, ⟨7000000000, some ProcessStatus.Run⟩⟩,
         ⟨false, true, ⟨9000000000, none⟩⟩]
        (initWatcher 3) "--:--:--").1.process_duration
      = (initWatcher 3).process_duration ∧
    (watcherStep false true ⟨7000000000, some ProcessStatus.Run⟩
        (initWatcher 3) "--:--:--").state.last_update = 7000000000 :=
  ⟨(C2_pause_contributes_zero ⟨7000000000, some ProcessStatus.Run⟩
      (initWatcher 3) "--:--:--"
      [⟨false, true, ⟨7000000000, some ProcessStatus.Run⟩⟩,
       ⟨false, true, ⟨9000000000, none⟩⟩] (by decide)).2.2.2.2.1,
   (C2_pause_contributes_zero ⟨7000000000, some ProcessStatus.Run⟩
      (initWatcher 3) "--:--:--" [] rfl).2.1⟩

/-- C3 counterexample: on an unpaused tick that finds the process alive but
not running, the code does not re-anchor `last_update` to the sample's
timestamp (it stays at 0, not 5000000000), and a later Running sample then
retroactively credits the whole non-running gap: from a fresh watcher at
instant 0, a NotRunning tick at 5s followed by a Running tick at 10s
accumulates the full 10 seconds. -/
theorem C3_counterexample :
    (watcherStep false false ⟨5000000000, some ProcessStatus.Other⟩
        (initWatcher 0) "--:--:--").state.last_update ≠ 5000000000 ∧
    (watcherRun
        [⟨false, false, ⟨5000000000, some ProcessStatus.Other⟩⟩,
         ⟨false, false, ⟨10000000000, some ProcessStatus.Run⟩⟩]
        (initWatcher 0) "--:--:--").1.process_duration = 10000000000 := by
  decide

/-- C3 amended: on every tick where the process exists but its status is
not Running and the session is not paused, the watcher changes nothing at
all — the duration is not increased, but the anchor instant is also left
unchanged (it is not re-anchored to the sample timestamp), no write occurs
and the loop does not terminate; a later Running sample therefore credits
the entire gap since the previous anchor, including the non-running part. -/
theorem C3_notrunning_leaves_state_unchanged (inp : TickInput)
    (s : WatcherState) (text : String)
    (h : inp.probe = some ProcessStatus.Other) :
    watcherStep false false inp s text
      = { state := s, text := text, wrote := false, terminated := false } := by
  simp [watcherStep, tickBody, h]

theorem C3_notrunning_leaves_state_unchanged_witness :
    watcherStep false false ⟨5000000000, some ProcessStatus.Other⟩
        (initWatcher 0) "--:--:--"
      = { state := initWatcher 0, text := "--:--:--", wrote := false,
          terminated := false } :=
  C3_notrunning_leaves_state_unchanged ⟨5000000000, some ProcessStatus.Other⟩
    (initWatcher 0) "--:--:--" rfl

/-- C4: on every uncancelled, unpaused tick that observes status Running,
the new accumulated duration is the previous duration plus the delta from
the previous anchor to the sample timestamp clamped to be non-negative
(stated over the integers to make the clamp explicit), the anchor becomes
the sample timestamp, and the duration never decreases — even when the
sampled timestamp is earlier than the anchor. -/
theorem C4_running_accumulates_clamped (inp : TickInput) (s : WatcherState)
    (text : String) (h : inp.probe = some ProcessStatus.Run) :
    ((watcherStep false false inp s text).state.process_duration : ℤ)
        = (s.process_duration : ℤ)
            + max ((inp.now : ℤ) - (s.last_update : ℤ)) 0 ∧
    (watcherStep false false inp s text).state.last_update = inp.now ∧
    s.process_duration
        ≤ (watcherStep false false inp s text).state.process_duration := by
  refine ⟨?_, ?_, ?_⟩
  · simp [watcherStep, tickBody, h, saturatingDurationSince]
    omega
  · simp [watcherStep, tickBody, h]
  · simp [watcherStep, tickBody, h, saturatingDurationSince]

theorem C4_running_accumulates_clamped_witness :
    ((watcherStep false false ⟨1500000000, some ProcessStatus.Run⟩
        (initWatcher 0) "--:--:--").state.process_duration : ℤ)
        = ((initWatcher 0).process_duration : ℤ)
            + max (((1500000000 : Nat) : ℤ)
                - ((initWatcher 0).last_update : ℤ)) 0 ∧
    (watcherStep false false ⟨1500000000, some ProcessStatus.Run⟩
        (initWatcher 0) "--:--:--").state.last_update = 1500000000 :=
  ⟨(C4_running_accumulates_clamped ⟨1500000000, some ProcessStatus.Run⟩
      (initWatcher 0) "--:--:--" rfl).1,
   (C4_running_accumulates_clamped ⟨1500000000, some ProcessStatus.Run⟩
      (initWatcher 0) "--:--:--" rfl).2.1⟩

/-- C5: on an uncancelled, unpaused tick whose probe finds the process
absent (the pid no longer resolves), the loop terminates with the local
state and published text unchanged and without writing; a run starting with
such a tick ends there, performing none of the remaining iterations. -/
theorem C5_absent_terminates (inp : TickInput) (s : WatcherState)
    (text : String) (rest : List IterInput) (h : inp.probe = none) :
    watcherStep false false inp s text
        = { state := s, text := text, wrote := false, terminated := true } ∧
    watcherRun (⟨false, false, inp⟩ :: rest) s text = (s, text, true) := by
  constructor
  · simp [watcherStep, tickBody, h]
  · simp [watcherRun, watcherStep, tickBody, h]

theorem C5_absent_terminates_witness :
    watcherStep false false ⟨9000000000, none⟩ (initWatcher 0) "00:00:05"
        = { state := initWatcher 0, text := "00:00:05", wrote := false,
            terminated := true } ∧
    watcherRun
        [⟨false, false, ⟨9000000000, none⟩⟩,
         ⟨false, false, ⟨9200000000, some ProcessStatus.Run⟩⟩]
        (initWatcher 0) "00:00:05" = (initWatcher 0, "00:00:05", true) :=
  C5_absent_terminates ⟨9000000000, none⟩ (initWatcher 0) "00:00:05"
    [⟨false, false, ⟨9200000000, some ProcessStatus.Run⟩⟩] rfl

/-- C6: when a cancellation signal is pending at an iteration, the loop
returns immediately with state and text unchanged and no write; the result
does not depend on the tick observation at all (the biased select polls
cancellation first, so a simultaneously ready tick is ignored and the
process is not probed); and a run reaching a cancelled iteration performs
none of the remaining iterations — the loop never samples or writes
again. -/
theorem C6_cancellation_priority (paused paused2 : Bool)
    (inp inp2 : TickInput) (s : WatcherState) (text : String)
    (rest : List IterInput) (i : IterInput) (hc : i.cancelPending = true) :
    watcherStep true paused inp s text
        = { state := s, text := text, wrote := false, terminated := true } ∧
    watcherStep true paused inp s text = watcherStep true paused2 inp2 s text ∧
    watcherRun (i :: rest) s text = (s, text, true) := by
  refine ⟨rfl, rfl, ?_⟩
  simp [watcherRun, watcherStep, hc]

theorem C6_cancellation_priority_witness :
    watcherStep true false ⟨5000000000, some ProcessStatus.Run⟩
        (initWatcher 0) "00:00:03"
        = { state := initWatcher 0, text := "00:00:03", wrote := false,
            terminated := true } ∧
    watcherStep true false ⟨5000000000, some ProcessStatus.Run⟩
        (initWatcher 0) "00:00:03"
      = watcherStep true true ⟨6000000000, none⟩ (initWatcher 0) "00:00:03" ∧
    watcherRun
        [⟨true, false, ⟨5000000000, some ProcessStatus.Run⟩⟩,
         ⟨false, false, ⟨6000000000, some ProcessStatus.Run⟩⟩]
        (initWatcher 0) "00:00:03" = (initWatcher 0, "00:00:03", true) :=
  C6_cancellation_priority false true ⟨5000000000, some ProcessStatus.Run⟩
    ⟨6000000000, none⟩ (initWatcher 0) "00:00:03"
    [⟨false, false, ⟨6000000000, some ProcessStatus.Run⟩⟩]
    ⟨true, false, ⟨5000000000, some ProcessStatus.Run⟩⟩ rfl

/-- C9: a tick taken while paused never consults the probe — the step's
outcome is identical for any two probe results, including absence — it
writes nothing, leaves the published text unchanged and cannot terminate;
and a whole schedule of paused ticks never terminates the loop, so a
process that exits during a pause is not detected and the session does not
end until an unpaused tick occurs. -/
theorem C9_paused_skips_probe (now : Instant) (p1 p2 : Option ProcessStatus)
    (s : WatcherState) (text : String) (run : List IterInput)
    (hrun : run.all (fun i => !i.cancelPending && i.paused) = true) :
    watcherStep false true ⟨now, p1⟩ s text
        = watcherStep false true ⟨now, p2⟩ s text ∧
    (watcherStep false true ⟨now, p1⟩ s text).wrote = false ∧
    (watcherStep false true ⟨now, p1⟩ s text).text = text ∧
    (watcherStep false true ⟨now, p1⟩ s text).terminated = false ∧
    (watcherRun run s text).2.2 = false :=
  ⟨rfl, rfl, rfl, rfl, (watcherRun_paused_frame run hrun s text).2.2⟩

theorem C9_paused_skips_probe_witness :
    watcherStep false true ⟨4000000000, some ProcessStatus.Run⟩
        (initWatcher 0) "00:00:02"
      = watcherStep false true ⟨4000000000, none⟩ (initWatcher 0) "00:00:02" ∧
    (watcherRun
        [⟨false, true, ⟨4000000000, none⟩⟩,
         ⟨false, true, ⟨4200000000, none⟩⟩]
        (initWatcher 0) "00:00:02").2.2 = false :=
  ⟨(C9_paused_skips_probe 4000000000 (some ProcessStatus.Run) none
      (initWatcher 0) "00:00:02" [] rfl).1,
   (C9_paused_skips_probe 4000000000 (some ProcessStatus.Run) none
      (initWatcher 0) "00:00:02"
      [⟨false, true, ⟨4000000000, none⟩⟩, ⟨false, true, ⟨4200000000, none⟩⟩]
      (by decide)).2.2.2.2⟩

/-- C7: clicking the currently tracked pid is a no-op — the app state is
unchanged, no token is cancelled and no watcher is spawned; clicking a
different pid resets the paused flag to false, records the new pid, spawns
a fresh watcher and cancels exactly the previous session's token. -/
theorem C7_select_noop_and_pause_reset :
    (∀ (pid : Pid) (name : String) (now tok : Nat) (app : ProcessApp),
      app.tracked_process = some pid →
        select_clicked pid name now tok app
          = { app := app, cancelled_old := none, spawned := none }) ∧
    (∀ (pid : Pid) (name : String) (now tok : Nat) (app : ProcessApp),
      app.tracked_process ≠ some pid →
        (select_clicked pid name now tok app).app.paused = false ∧
        (select_clicked pid name now tok app).app.tracked_process = some pid ∧
        (select_clicked pid name now tok app).spawned
            = some (initWatcher now) ∧
        (select_clicked pid name now tok app).cancelled_old
            = app.cancellation_token) := by
  constructor
  · intro pid name now tok app h
    simp [select_clicked, h]
  · intro pid name now tok app h
    simp [select_clicked, h]

theorem C7_select_noop_and_pause_reset_witness :
    select_clicked 5 "game" 11 8
        { duration_text := "00:00:09", paused := true,
          cancellation_token := some 4, tracked_process := some 5,
          tracked_process_name := "game" }
      = { app := { duration_text := "00:00:09", paused := true,
                   cancellation_token := some 4, tracked_process := some 5,
                   tracked_process_name := "game" },
          cancelled_old := none, spawned := none } ∧
    (select_clicked 6 "other" 11 8
        { duration_text := "00:00:09", paused := true,
          cancellation_token := some 4, tracked_process := some 5,
          tracked_process_name := "game" }).app.paused = false :=
  ⟨C7_select_noop_and_pause_reset.1 5 "game" 11 8
      { duration_text := "00:00:09", paused := true,
        cancellation_token := some 4, tracked_process := some 5,
        tracked_process_name := "game" } rfl,
   (C7_select_noop_and_pause_reset.2 6 "other" 11 8
      { duration_text := "00:00:09", paused := true,
        cancellation_token := some 4, tracked_process := some 5,
        tracked_process_name := "game" } (by decide)).1⟩

/-- C10: whatever the app's history, whenever a click spawns a watcher the
spawned watcher starts with accumulated duration zero, anchor instant equal
to the spawn time, and last published seconds zero — no duration from a
previous session is carried over. -/
theorem C10_fresh_session_starts_zero (pid : Pid) (name : String)
    (now tok : Nat) (app : ProcessApp) (w : WatcherState)
    (h : (select_clicked pid name now tok app).spawned = some w) :
    w.process_duration = 0 ∧ w.last_update = now ∧ w.last_seconds = 0 := by
  by_cases hp : app.tracked_process = some pid
  · simp [select_clicked, hp] at h
  · simp [select_clicked, hp] at h
    subst h
    simp [initWatcher]

theorem C10_fresh_session_starts_zero_witness :
    (initWatcher 42).process_duration = 0 ∧
    (initWatcher 42).last_update = 42 ∧ (initWatcher 42).last_seconds = 0 :=
  C10_fresh_session_starts_zero 5 "game" 42 1 ProcessApp.new
    (initWatcher 42) (by decide)

/-- The concrete run refuting C8: start tracking pid 5 from a fresh app, let
the watcher observe one Running tick at 1.5s (publishing "00:00:01"), then
click Stop. -/
def c8trace : AppSys :=
  appSysRun
    [AppEvent.selectClick 5 "game" 0 1,
     AppEvent.watcherTick ⟨1500000000, some ProcessStatus.Run⟩,
     AppEvent.stopClick]
    { app := ProcessApp.new, watcher := none }

/-- C8 counterexample: after Stop no session is active (no tracked process
and no live watcher), yet the consumer-visible duration text is the
previous session's "00:00:01", not the placeholder — the Stop handler never
resets `duration_text`. -/
theorem C8_counterexample :
    c8trace.app.tracked_process = none ∧ c8trace.watcher = none ∧
    c8trace.app.duration_text = "00:00:01" ∧
    c8trace.app.duration_text ≠ "--:--:--" := by
  decide

/-- C8 amended: before any session starts the consumer-visible text is the
placeholder "--:--:--"; Stop clears the tracked process but leaves the
published text unchanged, so after Stop the last session's duration remains
visible until a new session's first write replaces it. -/
theorem C8_placeholder_initially_but_stop_keeps_text :
    ProcessApp.new.duration_text = "--:--:--" ∧
    ProcessApp.new.tracked_process = none ∧
    ∀ app : ProcessApp,
      (stop_clicked app).1.duration_text = app.duration_text ∧
      (stop_clicked app).1.tracked_process = none :=
  ⟨rfl, rfl, fun _ => ⟨rfl, rfl⟩⟩

/-- Helper for C1: any single enabled action taken from a state whose old
loop has terminated keeps the old loop terminated and appends no
old-session write to the log. -/
theorem swStep_preserves_old_done (a : SwAction) (s s2 : SwitchSys)
    (hd : s.oldPC = OldPC.done) (h : swStep a s = some s2) :
    s2.oldPC = OldPC.done ∧
    s2.log.filter (fun w => w.1) = s.log.filter (fun w => w.1) := by
  cases a with
  | oldSelect inp => simp [swStep, hd] at h
  | oldBody => simp [swStep, hd] at h
  | switchTo t =>
    cases hnt : s.newTask with
    | none =>
      simp [swStep, hnt] at h
      subst h
      exact ⟨hd, rfl⟩
    | some w => simp [swStep, hnt] at h
  | newTick inp =>
    cases hnt : s.newTask with
    | none => simp [swStep, hnt] at h
    | some w =>
      simp only [swStep, hnt] at h
      rw [Option.some_inj] at h
      subst h
      refine ⟨hd, ?_⟩
      simp only [List.filter_append]
      cases hw : (watcherStep false false inp w s.text).wrote <;> simp

/-- Helper for C1: once the old loop has terminated, no continuation of the
interleaving adds an old-session write to the log. -/
theorem swRun_old_done_frame (trace : List SwAction) :
    ∀ s s1 : SwitchSys, s.oldPC = OldPC.done → swRun trace s = some s1 →
      s1.log.filter (fun w => w.1) = s.log.filter (fun w => w.1) := by
  induction trace with
  | nil =>
    intro s s1 _ hr
    simp only [swRun, Option.some_inj] at hr
    subst hr
    rfl
  | cons a rest ih =>
    intro s s1 hd hr
    simp only [swRun] at hr
    cases hstep : swStep a s with
    | none => rw [hstep] at hr; cases hr
    | some s2 =>
      rw [hstep] at hr
      obtain ⟨hd2, hlog⟩ := swStep_preserves_old_done a s s2 hd hstep
      rw [ih s2 s1 hd2 hr, hlog]

/-- The old session's watcher mid-switch: it has accumulated one hour and is
sitting at its select point; the shared text shows "01:00:00". -/
def switchInit : SwitchSys :=
  { oldCancel := false, oldPC := OldPC.atSelect,
    oldState := { last_update := 3600000000000, last_seconds := 3600,
                  process_duration := 3600000000000 },
    newTask := none, text := "01:00:00", log := [] }

/-- C1 counterexample: an interleaving in which the old loop's select
commits to a tick, the UI then cancels the old token and spawns the new
watcher (without waiting), the new watcher publishes its first value
"00:00:00", and the old loop's already-running tick body then writes its
stale "01:00:01" into the same shared publisher — an old-session write is
observed after the new session's first write, so the code provides no
non-overlap guarantee across a switch. -/
theorem C1_counterexample :
    (swRun
        [SwAction.oldSelect ⟨3601000000000, some ProcessStatus.Run⟩,
         SwAction.switchTo 3601000000000,
         SwAction.newTick ⟨3601000000000, some ProcessStatus.Run⟩,
         SwAction.oldBody]
        switchInit).map (fun s => (s.log, staleAfterNew s.log))
      = some ([(false, "00:00:00"), (true, "01:00:01")], true) := by
  decide

/-- C1 amended: what the code does guarantee on a switch: the controller
cancels the old session's token in the same synchronous action that spawns
the fresh new watcher, an old loop that reaches its select point with
cancellation pending terminates immediately without sampling or writing,
and a terminated old loop contributes no further writes under any
continuation of the interleaving. The controller does not, however, wait
for that acknowledgment, so an old-loop write whose tick was already
committed can still land after the new session's first write
(see the counterexample). -/
theorem C1_switch_cancels_before_spawn :
    (∀ (s : SwitchSys) (t : Instant), s.newTask = none →
      swStep (SwAction.switchTo t) s
        = some { s with
                  oldCancel := true,
                  newTask := some (initWatcher t) }) ∧
    (∀ (s : SwitchSys) (inp : TickInput),
      s.oldPC = OldPC.atSelect → s.oldCancel = true →
        swStep (SwAction.oldSelect inp) s
          = some { s with oldPC := OldPC.done }) ∧
    (∀ (trace : List SwAction) (s s1 : SwitchSys),
      s.oldPC = OldPC.done → swRun trace s = some s1 →
        s1.log.filter (fun w => w.1) = s.log.filter (fun w => w.1)) := by
  refine ⟨?_, ?_, ?_⟩
  · intro s t h
    simp [swStep, h]
  · intro s inp h hc
    simp [swStep, h, hc]
  · exact fun trace s s1 hd hr => swRun_old_done_frame trace s s1 hd hr

theorem C1_switch_cancels_before_spawn_witness :
    swStep (SwAction.switchTo 7) switchInit
        = some { switchInit with
                  oldCancel := true,
                  newTask := some (initWatcher 7) } ∧
    swStep (SwAction.oldSelect ⟨8, some ProcessStatus.Run⟩)
        { switchInit with oldCancel := true }
        = some { { switchInit with oldCancel := true } with
                   oldPC := OldPC.done } ∧
    ({ switchInit with
        oldCancel := true,
        oldPC := OldPC.done,
        newTask := some (initWatcher 3) } : SwitchSys).log.filter
          (fun w => w.1)
      = ({ switchInit with oldPC := OldPC.done } : SwitchSys).log.filter
          (fun w => w.1) :=
  ⟨C1_switch_cancels_before_spawn.1 switchInit 7 rfl,
   C1_switch_cancels_before_spawn.2.1 { switchInit with oldCancel := true }
     ⟨8, some ProcessStatus.Run⟩ rfl rfl,
   C1_switch_cancels_before_spawn.2.2 [SwAction.switchTo 3]
     { switchInit with oldPC := OldPC.done }
     { switchInit with
        oldCancel := true,
        oldPC := OldPC.done,
        newTask := some (initWatcher 3) } rfl (by decide)⟩

end TimeTracker
